import Mathlib

/-!
Verification of the ACCIO-RECIPE backend (Next.js route handlers) against its
natural-language specification.  Each route handler that a claim touches is
shallowly embedded as a pure Lean function: the asynchronous external calls
(database reads, HTTP fetches, the language-model call) become explicit input
values, machine floats become exact rationals, JavaScript Date values become
integer day numbers (midnight-normalized dates are whole multiples of
86 400 000 ms), and the JSON responses become plain structures carrying the
HTTP status code and the data the handler would persist or return.
-/

namespace Accio

/-! ## String utilities shared by several handlers -/

/-- Prefix test on character lists: does the second list start with the
first one?  Embeds the anchored part of a JavaScript regex or of
String.prototype.startsWith. -/
def hasPre : List Char → List Char → Bool
  | [], _ => true
  | _ :: _, [] => false
  | p :: ps, c :: cs => p == c && hasPre ps cs

/-- Substring test on character lists (JavaScript String.prototype.includes):
true when the needle occurs contiguously anywhere in the haystack. -/
def listContains (needle : List Char) : List Char → Bool
  | [] => hasPre needle []
  | c :: cs => hasPre needle (c :: cs) || listContains needle (c :: cs).tail

/-- url.includes(needle) on Lean strings. -/
def strIncludes (hay needle : String) : Bool :=
  listContains needle.data hay.data

/-- Drop leading and trailing whitespace from a character list. -/
def trimChars (cs : List Char) : List Char :=
  ((cs.dropWhile Char.isWhitespace).reverse.dropWhile Char.isWhitespace).reverse

/-- JavaScript String.prototype.trim: strip whitespace from both ends. -/
def strTrim (s : String) : String :=
  String.mk (trimChars s.data)

/-! ## D-Day computation (GET /api/fridge, GET /api/dashboard)

The handlers normalize both the expiry date and today to local midnight, so
the two timestamps are exact multiples of 86 400 000 milliseconds; we
represent such a midnight-normalized Date by its day number (an integer). -/

/-- Milliseconds in a day: 1000 * 60 * 60 * 24. -/
def msPerDay : ℤ := 1000 * 60 * 60 * 24

/-- Math.ceil((expiry.getTime() - today.getTime()) / (1000*60*60*24)) where
both Date values are midnight-normalized and given as day numbers. -/
def dDayCalc (todayDay expiryDay : ℤ) : ℤ :=
  ⌈((expiryDay * msPerDay - todayDay * msPerDay : ℤ) : ℚ) / (msPerDay : ℚ)⌉

/-- One row returned by prisma.fridge_items.findMany in GET /api/fridge. -/
structure FridgeRow where
  item_id : ℤ
  custom_name : Option String
  quantity : Option ℚ
  unit : Option String
  expiry_date : Option ℤ
  master_name : Option String
  master_icon : Option String
deriving Repr, DecidableEq

/-- One element of the GET /api/fridge response array. -/
structure FridgeView where
  item_id : ℤ
  name : String
  icon_url : Option String
  quantity : Option ℚ
  unit : Option String
  expiry_date : Option ℤ
  d_day : Option ℤ
deriving Repr, DecidableEq

/-- The per-item mapping of GET /api/fridge: resolve the display name,
compute d_day from the midnight-normalized expiry date (null when the item
has no expiry date), pass the other fields through. -/
def fridgeItemView (todayDay : ℤ) (item : FridgeRow) : FridgeView :=
  { item_id := item.item_id
    name := (item.master_name.getD (item.custom_name.getD "알 수 없는 재료"))
    icon_url := item.master_icon
    quantity := item.quantity
    unit := item.unit
    expiry_date := item.expiry_date
    d_day := item.expiry_date.map (fun e => dDayCalc todayDay e) }

/-! ## Monthly success rate (GET /api/dashboard) -/

/-- The cooking_logs status enum. -/
inductive LogStatus where
  | SUCCESS
  | REGRET
  | FAIL
deriving Repr, DecidableEq, BEq

/-- Math.round((successCount / totalCount) * 100) when the month has logs,
null otherwise, exactly as computed in GET /api/dashboard from the list of
this-month log statuses. -/
def monthlySuccessRate (thisMonthLogs : List LogStatus) : Option ℤ :=
  let totalCount := thisMonthLogs.length
  let successCount := (thisMonthLogs.filter (fun s => s == LogStatus.SUCCESS)).length
  if 0 < totalCount then
    some (round ((successCount : ℚ) / (totalCount : ℚ) * 100))
  else
    none

/-! ## Ingredient amount scaling (GET /api/recipes/[recipe_id]) -/

/-- parseFloat(x.toFixed(2)): round a number to two decimal places.  On exact
values Number.prototype.toFixed picks the closest 2-decimal value, resolving
ties upward, which is the rounding of 100·x to the nearest integer. -/
def round2 (q : ℚ) : ℚ :=
  ((round (q * 100) : ℤ) : ℚ) / 100

/-- One stored recipe_ingredients row as selected by the detail handler. -/
structure IngredientRow where
  ri_id : ℤ
  name : String
  amount : Option ℚ
  unit : Option String
deriving Repr, DecidableEq

/-- One ingredient of the GET /api/recipes/[recipe_id] response. -/
structure IngredientView where
  ri_id : ℤ
  name : String
  amount : Option ℚ
  unit : Option String
deriving Repr, DecidableEq

/-- The servings resolution of the detail handler: the servings query
parameter (parseInt, 0 when absent) is used when positive, otherwise the
recipe base servings (which itself defaults to 1 when the column is null). -/
def targetServings (baseServings : Option ℤ) (requestedServings : ℤ) : ℤ :=
  let base := baseServings.getD 1
  if 0 < requestedServings then requestedServings else base

/-- The ingredient mapping of GET /api/recipes/[recipe_id]: each non-null
amount is multiplied by the ratio target/base and rounded to two decimals
via toFixed(2); null amounts stay null. -/
def scaleIngredients (baseServings : Option ℤ) (requestedServings : ℤ)
    (rows : List IngredientRow) : List IngredientView :=
  let base := baseServings.getD 1
  let target := targetServings baseServings requestedServings
  let ratio : ℚ := (target : ℚ) / (base : ℚ)
  rows.map (fun ing =>
    { ri_id := ing.ri_id
      name := ing.name
      amount := ing.amount.map (fun a => round2 (a * ratio))
      unit := ing.unit })

/-! ## Video thumbnail derivation (POST /api/recipes/extract)

The handler runs url.match(/(?:v=|youtu\.be\/)([^&]+)/): scan the URL left
to right; at the first position where either the literal "v=" or the literal
"youtu.be/" matches and is followed by at least one character other than
the ampersand, capture the maximal ampersand-free run after the literal. -/

/-- The first alternative of the regex: the characters of "v=". -/
def vEqNeedle : List Char := ['v', '=']

/-- The second alternative of the regex: the characters of "youtu.be/". -/
def ytbeNeedle : List Char := ['y', 'o', 'u', 't', 'u', '.', 'b', 'e', '/']

/-- The capture group ([^&]+) applied greedily at a position: the maximal
run of characters different from the ampersand. -/
def takeCapture (cs : List Char) : List Char :=
  cs.takeWhile (fun c => c != '&')

/-- url.match(/(?:v=|youtu\.be\/)([^&]+)/): the captured video id of the
first successful match position, none when the regex does not match. -/
def videoIdMatch : List Char → Option (List Char)
  | [] => none
  | c :: cs =>
    if hasPre vEqNeedle (c :: cs) &&
        !(takeCapture ((c :: cs).drop vEqNeedle.length)).isEmpty then
      some (takeCapture ((c :: cs).drop vEqNeedle.length))
    else if hasPre ytbeNeedle (c :: cs) &&
        !(takeCapture ((c :: cs).drop ytbeNeedle.length)).isEmpty then
      some (takeCapture ((c :: cs).drop ytbeNeedle.length))
    else
      videoIdMatch cs

/-- The thumbnail assignment of the video branch: when the video id regex
matches, the thumbnail URL is the fixed YouTube image template around the
captured id; otherwise the thumbnail stays null. -/
def thumbnailFromUrl (url : String) : Option String :=
  (videoIdMatch url.data).map (fun id =>
    String.mk ("https://img.youtube.com/vi/".data ++ id ++ "/maxresdefault.jpg".data))

/-! ## Master-ingredient search (GET /api/ingredients/master) -/

/-- One ingredients_master row as selected by the search handler. -/
structure MasterRow where
  master_id : ℤ
  name : String
  category : Option String
  icon_url : Option String
  default_unit : Option String
deriving Repr, DecidableEq

/-- Modelled from the spec: the Prisma "contains" filter runs against a
MySQL column whose collation is case-insensitive (the schema file is not
part of the sources); per the spec the match is a case-insensitive
substring match, embedded as substring containment after lowercasing. -/
def nameContainsCI (name q : String) : Bool :=
  listContains (q.data.map Char.toLower) (name.data.map Char.toLower)

/-- GET /api/ingredients/master: trim the q parameter; when it is nonempty
filter the catalog to names containing it, otherwise keep the whole
catalog; order by name ascending; take at most 50 rows. -/
def masterSearch (catalog : List MasterRow) (qParam : Option String) : List MasterRow :=
  let q := (qParam.map strTrim).getD ""
  let filtered :=
    if q ≠ "" then catalog.filter (fun row => nameContainsCI row.name q) else catalog
  (filtered.mergeSort (fun a b => a.name ≤ b.name)).take 50

/-! ## Recipe extraction pipeline (POST /api/recipes/extract)

The handler is embedded as a pure function over an environment that holds
the outcome of each external call (transcript fetch, page fetch and parse,
model call, JSON parse of the model output).  The outcome records the HTTP
status, the list of external operations the handler performed (so that the
absence of retries is provable), and the response data on success. -/

/-- Collapse every maximal run of whitespace into a single space:
text.replace(/\s+/g, ' '). -/
def squeezeWs : List Char → List Char
  | [] => []
  | c :: cs =>
    let rest := squeezeWs cs
    if c.isWhitespace then
      match rest with
      | ' ' :: _ => rest
      | _ => ' ' :: rest
    else c :: rest

/-- The whitespace normalization of the scrape branch:
.replace(/\s+/g, ' ').trim(). -/
def collapseText (s : String) : String :=
  strTrim (String.mk (squeezeWs s.data))

/-- What the cheerio parse of a fetched page yields: the text of the likely
content containers, the title text, the first h1 text, and the og:image
content attribute (none when the meta tag or attribute is absent). -/
structure PageData where
  bodyText : String
  titleText : String
  h1Text : String
  ogImage : Option String
deriving Repr, DecidableEq

/-- One ingredient of the model output schema. -/
structure LlmIngredient where
  name : String
  amount : Option ℚ
  unit : String
deriving Repr, DecidableEq

/-- One step of the model output schema. -/
structure LlmStep where
  step_order : ℤ
  instruction : String
  timer_seconds : ℤ
deriving Repr, DecidableEq

/-- The parsed model output. -/
structure LlmRecipe where
  title : String
  difficulty : String
  servings : ℤ
  ingredients : List LlmIngredient
  steps : List LlmStep
deriving Repr, DecidableEq

/-- The outcome of each external interaction the handler may perform:
transcript fetch result (error = the fetch threw), page fetch-and-parse
result (error = non-ok HTTP response or a thrown parse), whether
OPENAI_API_KEY is set, the content the model call returned (none = null),
and the JSON.parse result of that content (none = parse throws). -/
structure ExtractEnv where
  transcriptResult : Except String (List String)
  pageResult : Except String PageData
  apiKeySet : Bool
  llmContent : Option String
  parsedRecipe : Option LlmRecipe

/-- The external operations the handler can issue. -/
inductive ExtOp where
  | fetchTranscript
  | fetchPage
  | callModel
deriving Repr, DecidableEq

/-- The assembled success payload: the model output overlaid with the
source URL and the scrape-derived thumbnail. -/
structure ExtractResponse where
  title : String
  difficulty : String
  servings : ℤ
  ingredients : List LlmIngredient
  steps : List LlmStep
  source_url : String
  thumbnail_url : Option String
deriving Repr, DecidableEq

/-- The observable outcome of POST /api/recipes/extract. -/
structure ExtractOutcome where
  status : ℕ
  ops : List ExtOp
  resp : Option ExtractResponse
deriving Repr, DecidableEq

/-- The fixed placeholder title substituted when neither the model nor the
page yields a title. -/
def placeholderTitle : String := "이름 모를 레시피"

/-- url.includes('youtube.com') || url.includes('youtu.be'). -/
def isVideoUrl (url : String) : Bool :=
  strIncludes url "youtube.com" || strIncludes url "youtu.be"

/-- The tail of the handler after text acquisition: reject empty or
whitespace-only text (400), reject a missing model credential (500), issue
the single model call, convert a null or empty model response or a JSON
parse failure into a 500, and otherwise assemble the response, overlaying
source and thumbnail URLs and substituting the fallback or placeholder
title when the model title is empty or whitespace-only. -/
def extractTail (url extractedText : String) (thumbnailUrl : Option String)
    (fallbackTitle : String) (env : ExtractEnv) (ops : List ExtOp) : ExtractOutcome :=
  if extractedText = "" || strTrim extractedText = "" then
    ⟨400, ops, none⟩
  else if !env.apiKeySet then
    ⟨500, ops, none⟩
  else
    let ops := ops ++ [ExtOp.callModel]
    match env.llmContent with
    | none => ⟨500, ops, none⟩
    | some content =>
      if content = "" then ⟨500, ops, none⟩
      else
        match env.parsedRecipe with
        | none => ⟨500, ops, none⟩
        | some rd =>
          let finalTitle :=
            if rd.title = "" || strTrim rd.title = "" then
              if fallbackTitle ≠ "" then fallbackTitle else placeholderTitle
            else rd.title
          ⟨200, ops,
            some ⟨finalTitle, rd.difficulty, rd.servings, rd.ingredients, rd.steps,
              url, thumbnailUrl⟩⟩

/-- POST /api/recipes/extract: reject a missing or empty url field (400);
classify the URL; on the video path fetch the transcript (a throw becomes
400) and join the fragment texts with single spaces, deriving the thumbnail
from the video id regex; on the generic path fetch and parse the page (a
throw becomes 400), collapse whitespace, truncate to 30000 characters, and
extract fallback title and og:image thumbnail; then run the model tail. -/
def extractPost (urlField : Option String) (env : ExtractEnv) : ExtractOutcome :=
  match urlField with
  | none => ⟨400, [], none⟩
  | some url =>
    if url = "" then ⟨400, [], none⟩
    else if isVideoUrl url then
      match env.transcriptResult with
      | Except.error _ => ⟨400, [ExtOp.fetchTranscript], none⟩
      | Except.ok items =>
        let extractedText := String.intercalate " " items
        let thumbnailUrl := thumbnailFromUrl url
        extractTail url extractedText thumbnailUrl "" env [ExtOp.fetchTranscript]
    else
      match env.pageResult with
      | Except.error _ => ⟨400, [ExtOp.fetchPage], none⟩
      | Except.ok page =>
        let collapsed := collapseText page.bodyText
        let extractedText :=
          if 30000 < collapsed.length then String.mk (collapsed.data.take 30000)
          else collapsed
        let fallbackTitle :=
          if page.titleText ≠ "" then page.titleText
          else if page.h1Text ≠ "" then page.h1Text
          else ""
        let thumbnailUrl :=
          match page.ogImage with
          | some s => if s = "" then none else some s
          | none => none
        extractTail url extractedText thumbnailUrl fallbackTitle env [ExtOp.fetchPage]

/-! ## Ownership-checked mutations
(PUT/DELETE /api/cooking-logs/[log_id], PUT/DELETE /api/fridge/[item_id])

Each handler is a pure function of the resolved session user, the parsed
path id (none models a parseInt NaN), the findUnique lookup result, and the
request body; it returns the HTTP status together with the mutation it
issues (none = no update/delete call reaches the database). -/

/-- The { id, user_id } projection the ownership lookups select. -/
structure OwnedRecord where
  user_id : ℤ
deriving Repr, DecidableEq

/-- Request body of PUT /api/cooking-logs/[log_id] (absent fields stay
unchanged; the raw status is a string checked against the enum). -/
structure UpdateLogBody where
  status : Option String
  lesson_note : Option String
  companion : Option String
deriving Repr, DecidableEq

/-- The update data PUT /api/cooking-logs/[log_id] would send. -/
structure LogUpdate where
  status : Option String
  lesson_note : Option String
  companion : Option (Option String)
deriving Repr, DecidableEq

/-- The enum values of cooking_logs_status. -/
def validStatusValues : List String := ["SUCCESS", "REGRET", "FAIL"]

/-- PUT /api/cooking-logs/[log_id]: auth, id parse and positivity check,
existence check (404), ownership check (403), body validation (400), then
the single update call. -/
def cookingLogPut (session : Option ℤ) (logIdParsed : Option ℤ)
    (existing : Option OwnedRecord) (body : UpdateLogBody) : ℕ × Option LogUpdate :=
  match session with
  | none => (401, none)
  | some userId =>
    match logIdParsed with
    | none => (400, none)
    | some logId =>
      if logId ≤ 0 then (400, none)
      else
        match existing with
        | none => (404, none)
        | some record =>
          if record.user_id ≠ userId then (403, none)
          else
            let statusErr :=
              match body.status with
              | none => false
              | some s => !(validStatusValues.contains s)
            let noteErr :=
              match body.lesson_note with
              | none => false
              | some s => strTrim s = ""
            let companionErr :=
              match body.companion with
              | none => false
              | some s => 50 < (strTrim s).length
            if statusErr || noteErr || companionErr then (400, none)
            else
              (200, some
                { status := body.status
                  lesson_note := body.lesson_note.map strTrim
                  companion := body.companion.map (fun s =>
                    if strTrim s = "" then none else some (strTrim s)) })

/-- DELETE /api/cooking-logs/[log_id]: same gate sequence, then the single
delete call (the returned option carries the deleted id). -/
def cookingLogDelete (session : Option ℤ) (logIdParsed : Option ℤ)
    (existing : Option OwnedRecord) : ℕ × Option ℤ :=
  match session with
  | none => (401, none)
  | some userId =>
    match logIdParsed with
    | none => (400, none)
    | some logId =>
      if logId ≤ 0 then (400, none)
      else
        match existing with
        | none => (404, none)
        | some record =>
          if record.user_id ≠ userId then (403, none)
          else (200, some logId)

/-- Request body of PUT /api/fridge/[item_id]. -/
structure UpdateFridgeBody where
  quantity : Option ℚ
  unit : Option String
  expiry_date : Option String
deriving Repr, DecidableEq

/-- The update data PUT /api/fridge/[item_id] would send (the expiry date
is kept as its validated string form). -/
structure FridgeUpdate where
  quantity : Option ℚ
  unit : Option (Option String)
  expiry_date : Option (Option String)
deriving Repr, DecidableEq

/-- The YYYY-MM-DD shape test of the date regex together with digit
extraction: ten characters, four digits, a dash, two digits, a dash, two
digits, returned as the (year, month, day) numbers. -/
def parseYMD (s : String) : Option (ℤ × ℤ × ℤ) :=
  match s.data with
  | [y1, y2, y3, y4, '-', m1, m2, '-', d1, d2] =>
    if y1.isDigit && y2.isDigit && y3.isDigit && y4.isDigit &&
        m1.isDigit && m2.isDigit && d1.isDigit && d2.isDigit then
      some
        ((y1.toNat - '0'.toNat : ℤ) * 1000 + (y2.toNat - '0'.toNat : ℤ) * 100 +
           (y3.toNat - '0'.toNat : ℤ) * 10 + (y4.toNat - '0'.toNat : ℤ),
         (m1.toNat - '0'.toNat : ℤ) * 10 + (m2.toNat - '0'.toNat : ℤ),
         (d1.toNat - '0'.toNat : ℤ) * 10 + (d2.toNat - '0'.toNat : ℤ))
    else none
  | _ => none

/-- Gregorian leap-year rule. -/
def isLeapYear (y : ℤ) : Bool :=
  (y % 4 == 0 && y % 100 != 0) || y % 400 == 0

/-- Length of a month in the proleptic Gregorian calendar. -/
def daysInMonth (y m : ℤ) : ℤ :=
  if m == 2 then (if isLeapYear y then 29 else 28)
  else if m == 4 || m == 6 || m == 9 || m == 11 then 30
  else 31

/-- Is (y, m, d) a real calendar date (the condition under which the
ECMAScript Date parser accepts a YYYY-MM-DD string)? -/
def validYMD (y m d : ℤ) : Bool :=
  1 ≤ m && m ≤ 12 && 1 ≤ d && d ≤ daysInMonth y m

/-- Day number of a civil date counted from 1970-01-01 (the classic
days-from-civil computation), the day-scale image of Date.getTime for a
midnight timestamp. -/
def civilToDays (y m d : ℤ) : ℤ :=
  let yAdj := if m ≤ 2 then y - 1 else y
  let era := Int.fdiv yAdj 400
  let yoe := yAdj - era * 400
  let mp := Int.emod (m + 9) 12
  let doy := Int.ediv (153 * mp + 2) 5 + d - 1
  let doe := yoe * 365 + Int.ediv yoe 4 - Int.ediv yoe 100 + doy
  era * 146097 + doe - 719468

/-- new Date(s).getTime() on the day scale for a YYYY-MM-DD string: some
day number when the string has the shape and names a real date, none when
the Date would be invalid (NaN). -/
def dateStringDays (s : String) : Option ℤ :=
  (parseYMD s).bind (fun t =>
    if validYMD t.1 t.2.1 t.2.2 then some (civilToDays t.1 t.2.1 t.2.2) else none)

/-- isValidDateString: the YYYY-MM-DD regex matches and new Date(value)
is not NaN. -/
def isValidDateString (s : String) : Bool :=
  (dateStringDays s).isSome

/-- PUT /api/fridge/[item_id]: auth, id parse and positivity check,
existence check (404), ownership check (403), body validation (quantity
must be positive, expiry must be a valid date string), then the single
update call. -/
def fridgeItemPut (session : Option ℤ) (itemIdParsed : Option ℤ)
    (existing : Option OwnedRecord) (body : UpdateFridgeBody) : ℕ × Option FridgeUpdate :=
  match session with
  | none => (401, none)
  | some userId =>
    match itemIdParsed with
    | none => (400, none)
    | some itemId =>
      if itemId ≤ 0 then (400, none)
      else
        match existing with
        | none => (404, none)
        | some record =>
          if record.user_id ≠ userId then (403, none)
          else
            let quantityErr :=
              match body.quantity with
              | none => false
              | some q => q ≤ 0
            let expiryErr :=
              match body.expiry_date with
              | none => false
              | some s => !isValidDateString s
            if quantityErr || expiryErr then (400, none)
            else
              (200, some
                { quantity := body.quantity
                  unit := body.unit.map (fun u =>
                    if strTrim u = "" then none else some (strTrim u))
                  expiry_date := body.expiry_date.map (fun s =>
                    if s = "" then none else some s) })

/-- DELETE /api/fridge/[item_id]: same gate sequence, then the single
delete call. -/
def fridgeItemDelete (session : Option ℤ) (itemIdParsed : Option ℤ)
    (existing : Option OwnedRecord) : ℕ × Option ℤ :=
  match session with
  | none => (401, none)
  | some userId =>
    match itemIdParsed with
    | none => (400, none)
    | some itemId =>
      if itemId ≤ 0 then (400, none)
      else
        match existing with
        | none => (404, none)
        | some record =>
          if record.user_id ≠ userId then (403, none)
          else (200, some itemId)

/-! ## Fridge item creation (POST /api/fridge) -/

/-- Request body of POST /api/fridge. -/
structure CreateFridgeBody where
  name : Option String
  quantity : Option ℚ
  unit : Option String
  expiry_date : Option String
deriving Repr, DecidableEq

/-- The ingredients_master projection the handler looks up by name. -/
structure MasterLookup where
  master_id : ℤ
  default_unit : Option String
  base_shelf_life : Option ℤ
deriving Repr, DecidableEq

/-- The fridge_items row POST /api/fridge creates. -/
structure NewFridgeItem where
  user_id : ℤ
  master_id : Option ℤ
  custom_name : Option String
  quantity : ℚ
  unit : Option String
  expiry_date : Option ℤ
deriving Repr, DecidableEq

/-- POST /api/fridge: auth; validation (name required, quantity when given
must be a positive number, expiry_date when given must be a valid
YYYY-MM-DD string naming a date not before today) collecting errors into a
single 400; then resolve expiry (supplied date, or today plus the master
shelf life, or null), resolve unit (trimmed input, else the master default)
and create the row with quantity defaulting to 1. -/
def fridgePost (session : Option ℤ) (todayDay : ℤ) (body : CreateFridgeBody)
    (master : Option MasterLookup) : ℕ × Option NewFridgeItem :=
  match session with
  | none => (401, none)
  | some userId =>
    let nameErr :=
      match body.name with
      | none => true
      | some n => n = "" || strTrim n = ""
    let quantityErr :=
      match body.quantity with
      | none => false
      | some q => q ≤ 0
    let expiryErr :=
      match body.expiry_date with
      | none => false
      | some s =>
        if !isValidDateString s then true
        else
          match dateStringDays s with
          | some d => d < todayDay
          | none => true
    if nameErr || quantityErr || expiryErr then (400, none)
    else
      let name := strTrim (body.name.getD "")
      let resolvedExpiry : Option ℤ :=
        match body.expiry_date with
        | some s => dateStringDays s
        | none => (master.bind MasterLookup.base_shelf_life).map (fun shelf => todayDay + shelf)
      let resolvedUnit : Option String :=
        match body.unit.map strTrim with
        | some u => some u
        | none => master.bind MasterLookup.default_unit
      (201, some
        { user_id := userId
          master_id := master.map MasterLookup.master_id
          custom_name := if master.isSome then none else some name
          quantity := body.quantity.getD 1
          unit := resolvedUnit
          expiry_date := resolvedExpiry })

/-! ## Recipe creation (POST /api/recipes) -/

/-- One element of the ingredients array of the create-recipe body. -/
structure RecipeIngIn where
  name : Option String
  amount : Option ℚ
  unit : Option String
deriving Repr, DecidableEq

/-- One element of the steps array of the create-recipe body
(step_order none models a missing or non-number value). -/
structure RecipeStepIn where
  step_order : Option ℤ
  instruction : Option String
  timer_seconds : Option ℤ
  step_image_url : Option String
deriving Repr, DecidableEq

/-- Request body of POST /api/recipes (none on the arrays models a missing
or non-array value; servings defaults to 1 only when absent). -/
structure CreateRecipeBody where
  title : Option String
  servings : Option ℚ
  difficulty : Option String
  source_url : Option String
  thumbnail_url : Option String
  ingredients : Option (List RecipeIngIn)
  steps : Option (List RecipeStepIn)
deriving Repr, DecidableEq

/-- One recipe_ingredients row of the nested create. -/
structure StoredIngredient where
  name : String
  amount : Option ℚ
  unit : Option String
deriving Repr, DecidableEq

/-- One recipe_steps row of the nested create. -/
structure StoredStep where
  step_order : ℤ
  instruction : String
  timer_seconds : ℤ
  step_image_url : Option String
deriving Repr, DecidableEq

/-- The recipes row (with nested children) POST /api/recipes creates. -/
structure StoredRecipe where
  user_id : ℤ
  title : String
  servings : ℚ
  difficulty : Option String
  source_url : Option String
  thumbnail_url : Option String
  ingredients : List StoredIngredient
  steps : List StoredStep
deriving Repr, DecidableEq

/-- Does one ingredient input fail its validation (name missing, not a
string, or whitespace-only)?  No check touches the amount. -/
def badIngredientInput (ing : RecipeIngIn) : Bool :=
  match ing.name with
  | none => true
  | some n => n = "" || strTrim n = ""

/-- Does one step input fail its validation (step_order not a number, or
instruction missing or whitespace-only)? -/
def badStepInput (st : RecipeStepIn) : Bool :=
  st.step_order.isNone ||
    (match st.instruction with
     | none => true
     | some i => i = "" || strTrim i = "")

/-- POST /api/recipes: auth; validate title, the ingredients array (present,
nonempty, each name nonblank) and the steps array (present, nonempty, each
step_order a number and instruction nonblank), collecting errors into a
single 400; then persist the nested create.  servings and the ingredient
amounts are stored exactly as supplied, with no range check. -/
def createRecipe (session : Option ℤ) (body : CreateRecipeBody) : ℕ × Option StoredRecipe :=
  match session with
  | none => (401, none)
  | some userId =>
    let titleErr :=
      match body.title with
      | none => true
      | some t => t = "" || strTrim t = ""
    match body.ingredients, body.steps with
    | some ings, some steps =>
      if titleErr || ings.isEmpty || steps.isEmpty ||
          ings.any badIngredientInput || steps.any badStepInput then
        (400, none)
      else
        (201, some
          { user_id := userId
            title := strTrim (body.title.getD "")
            servings := body.servings.getD 1
            difficulty := body.difficulty.bind (fun s => if s = "" then none else some s)
            source_url := body.source_url.bind (fun s => if s = "" then none else some s)
            thumbnail_url := body.thumbnail_url.bind (fun s => if s = "" then none else some s)
            ingredients := ings.map (fun ing =>
              { name := strTrim (ing.name.getD "")
                amount := ing.amount
                unit := ing.unit.bind (fun u => if u = "" then none else some (strTrim u)) })
            steps := steps.map (fun st =>
              { step_order := st.step_order.getD 0
                instruction := strTrim (st.instruction.getD "")
                timer_seconds := st.timer_seconds.getD 0
                step_image_url :=
                  st.step_image_url.bind (fun u => if u = "" then none else some u) }) })
    | _, _ => (400, none)

/-! ## Helper lemmas -/

/-- The millisecond ceiling computation on midnight-normalized dates is the
plain difference of day numbers. -/
theorem dDayCalc_eq (todayDay expiryDay : ℤ) :
    dDayCalc todayDay expiryDay = expiryDay - todayDay := by
  unfold dDayCalc msPerDay
  have h : ((expiryDay * (1000 * 60 * 60 * 24) - todayDay * (1000 * 60 * 60 * 24) : ℤ) : ℚ) /
      (((1000 * 60 * 60 * 24 : ℤ)) : ℚ) = ((expiryDay - todayDay : ℤ) : ℚ) := by
    push_cast
    field_simp
    ring
  rw [h, Int.ceil_intCast]

/-! ## Claim theorems -/

/-- C3: for every fridge item with a non-null expiry date, the d_day value
returned by GET /api/fridge is the ceiling of the millisecond difference
between the midnight-normalized expiry date and midnight-normalized today
divided by a day, which equals the signed count of calendar days between
them (0 for today, 1 for tomorrow, -1 for yesterday); items without an
expiry date yield d_day null. -/
theorem fridge_dday_calendar_difference :
    (∀ (todayDay : ℤ) (item : FridgeRow),
      (fridgeItemView todayDay item).d_day
        = item.expiry_date.map (fun e => e - todayDay)) ∧
    (∀ todayDay : ℤ, ∀ item : FridgeRow,
      item.expiry_date = some todayDay → (fridgeItemView todayDay item).d_day = some 0) ∧
    (∀ todayDay : ℤ, ∀ item : FridgeRow,
      item.expiry_date = some (todayDay + 1) →
        (fridgeItemView todayDay item).d_day = some 1) ∧
    (∀ todayDay : ℤ, ∀ item : FridgeRow,
      item.expiry_date = some (todayDay - 1) →
        (fridgeItemView todayDay item).d_day = some (-1)) ∧
    (∀ todayDay : ℤ, ∀ item : FridgeRow,
      item.expiry_date = none → (fridgeItemView todayDay item).d_day = none) := by
  have base : ∀ (todayDay : ℤ) (item : FridgeRow),
      (fridgeItemView todayDay item).d_day
        = item.expiry_date.map (fun e => e - todayDay) := by
    intro todayDay item
    unfold fridgeItemView
    cases item.expiry_date with
    | none => rfl
    | some e => simp [dDayCalc_eq]
  refine ⟨base, ?_, ?_, ?_, ?_⟩
  · intro t item h
    rw [base, h]
    simp
  · intro t item h
    rw [base, h]
    simp
  · intro t item h
    rw [base, h]
    simp
  · intro t item h
    rw [base, h]
    simp

/-- C3 witness: a concrete item expiring one day after today yields
d_day 1. -/
theorem fridge_dday_calendar_difference_witness :
    (fridgeItemView 20000
        { item_id := 7, custom_name := some "우유", quantity := some 1,
          unit := some "개", expiry_date := some 20001,
          master_name := none, master_icon := none }).d_day = some 1 :=
  fridge_dday_calendar_difference.2.2.1 20000
    { item_id := 7, custom_name := some "우유", quantity := some 1,
      unit := some "개", expiry_date := some 20001,
      master_name := none, master_icon := none } rfl

/-- C4: GET /api/dashboard returns monthly_success_rate equal to
round(success_count / total_count * 100) over the current-month logs, and
with zero logs in the period the rate is null, never zero and never an
error value. -/
theorem dashboard_monthly_success_rate :
    (∀ logs : List LogStatus, logs ≠ [] →
      monthlySuccessRate logs
        = some (round
            (((logs.filter (fun s => s == LogStatus.SUCCESS)).length : ℚ)
              / (logs.length : ℚ) * 100))) ∧
    monthlySuccessRate [] = none ∧
    (∀ z : ℤ, monthlySuccessRate [] ≠ some z) := by
  refine ⟨?_, rfl, ?_⟩
  · intro logs h
    unfold monthlySuccessRate
    have : 0 < logs.length := List.length_pos.mpr h
    simp [this]
  · intro z h
    simp [monthlySuccessRate] at h

/-- C4 witness: one SUCCESS log and one FAIL log give a 50 percent rate,
and the empty month gives null. -/
theorem dashboard_monthly_success_rate_witness :
    monthlySuccessRate [LogStatus.SUCCESS, LogStatus.FAIL] = some 50 ∧
    monthlySuccessRate [] = none := by
  constructor
  · have h := dashboard_monthly_success_rate.1
      [LogStatus.SUCCESS, LogStatus.FAIL] (by decide)
    rw [h]
    have hfilter : List.filter (fun s => s == LogStatus.SUCCESS)
        [LogStatus.SUCCESS, LogStatus.FAIL] = [LogStatus.SUCCESS] := rfl
    rw [hfilter]
    have hval : ((([LogStatus.SUCCESS] : List LogStatus).length : ℚ))
        / (([LogStatus.SUCCESS, LogStatus.FAIL] : List LogStatus).length : ℚ) * 100 = 50 := by
      norm_num
    rw [hval]
    have : ((50 : ℤ) : ℚ) = (50 : ℚ) := by norm_num
    rw [← this, round_intCast]
  · exact dashboard_monthly_success_rate.2.1

/-- C2: for a recipe with base servings S and an ingredient with non-null
amount A, requesting servings R yields the amount round(A * R / S, 2);
null amounts stay null; and requesting the base servings returns A
unchanged whenever A is exactly representable at two decimals (the spec
presents stored amounts as such; the database column precision is outside
the sources). -/
theorem recipe_detail_amount_scaling (S R : ℤ) (A : ℚ) (rid : ℤ) (nm : String)
    (un : Option String) (hS : 0 < S) (hR : 0 < R) :
    scaleIngredients (some S) R [⟨rid, nm, some A, un⟩]
        = [⟨rid, nm, some (round2 (A * (R : ℚ) / (S : ℚ))), un⟩] ∧
    (round2 A = A →
      scaleIngredients (some S) S [⟨rid, nm, some A, un⟩] = [⟨rid, nm, some A, un⟩]) ∧
    scaleIngredients (some S) R [⟨rid, nm, none, un⟩] = [⟨rid, nm, none, un⟩] := by
  have hSQ : ((S : ℚ)) ≠ 0 := Int.cast_ne_zero.mpr hS.ne'
  refine ⟨?_, ?_, ?_⟩
  · unfold scaleIngredients targetServings
    simp only [Option.getD, if_pos hR, List.map]
    simp [mul_div_assoc]
  · intro hA
    unfold scaleIngredients targetServings
    simp only [Option.getD, if_pos hS, List.map]
    simp [div_self hSQ, hA]
  · unfold scaleIngredients targetServings
    simp

/-- C2 witness: scaling amount 1.5 from base servings 2 to requested
servings 3 gives 2.25, and requesting the base servings returns 1.5. -/
theorem recipe_detail_amount_scaling_witness :
    scaleIngredients (some 2) 3 [⟨1, "김치", some (3/2), some "컵"⟩]
        = [⟨1, "김치", some (round2 ((3/2 : ℚ) * (3 : ℚ) / (2 : ℚ))), some "컵"⟩] ∧
    scaleIngredients (some 2) 2 [⟨1, "김치", some (3/2), some "컵"⟩]
        = [⟨1, "김치", some (3/2), some "컵"⟩] := by
  have h := recipe_detail_amount_scaling 2 3 (3/2) 1 "김치" (some "컵")
    (by norm_num) (by norm_num)
  refine ⟨h.1, ?_⟩
  have h2 := recipe_detail_amount_scaling 2 2 (3/2) 1 "김치" (some "컵")
    (by norm_num) (by norm_num)
  exact h2.2.1 (by norm_num [round2, round_eq])

/-- C5: a PUT or DELETE against a cooking log or fridge item owned by a
different user than the session returns 403 with no update or delete call
issued. -/
theorem ownership_check_blocks_mutation (uid owner idVal : ℤ)
    (logBody : UpdateLogBody) (fridgeBody : UpdateFridgeBody)
    (hId : 0 < idVal) (hOwn : owner ≠ uid) :
    cookingLogPut (some uid) (some idVal) (some ⟨owner⟩) logBody = (403, none) ∧
    cookingLogDelete (some uid) (some idVal) (some ⟨owner⟩) = (403, none) ∧
    fridgeItemPut (some uid) (some idVal) (some ⟨owner⟩) fridgeBody = (403, none) ∧
    fridgeItemDelete (some uid) (some idVal) (some ⟨owner⟩) = (403, none) := by
  have hNotLe : ¬ idVal ≤ 0 := not_le.mpr hId
  refine ⟨?_, ?_, ?_, ?_⟩ <;>
    simp [cookingLogPut, cookingLogDelete, fridgeItemPut, fridgeItemDelete, hNotLe, hOwn]

/-- C5 witness: user 1 attempting to mutate records owned by user 2 gets
403 and no mutation on all four handlers. -/
theorem ownership_check_blocks_mutation_witness :
    cookingLogPut (some 1) (some 5) (some ⟨2⟩) ⟨none, none, none⟩ = (403, none) ∧
    cookingLogDelete (some 1) (some 5) (some ⟨2⟩) = (403, none) ∧
    fridgeItemPut (some 1) (some 5) (some ⟨2⟩) ⟨none, none, none⟩ = (403, none) ∧
    fridgeItemDelete (some 1) (some 5) (some ⟨2⟩) = (403, none) :=
  ownership_check_blocks_mutation 1 2 5 ⟨none, none, none⟩ ⟨none, none, none⟩
    (by norm_num) (by norm_num)

/-- A list all of whose characters differ from the ampersand is its own
regex capture. -/
theorem takeCapture_eq_self {l : List Char} (h : ∀ c ∈ l, c ≠ '&') :
    takeCapture l = l := by
  induction l with
  | nil => rfl
  | cons c cs ih =>
    have hc : (c != '&') = true := by
      simpa using h c (List.mem_cons_self c cs)
    have ih2 := ih (fun x hx => h x (List.mem_cons_of_mem c hx))
    unfold takeCapture at *
    simp [List.takeWhile, hc, ih2]

/-- On a canonical watch URL the video id regex captures exactly the id
after the v= query parameter. -/
theorem videoIdMatch_watch_url (id : List Char) (hne : id ≠ [])
    (hamp : ∀ c ∈ id, c ≠ '&') :
    videoIdMatch ("https://www.youtube.com/watch?".data ++ vEqNeedle ++ id) = some id := by
  have hcap : takeCapture id = id := takeCapture_eq_self hamp
  have hdata : "https://www.youtube.com/watch?".data
      = ['h', 't', 't', 'p', 's', ':', '/', '/', 'w', 'w', 'w', '.', 'y', 'o',
         'u', 't', 'u', 'b', 'e', '.', 'c', 'o', 'm', '/', 'w', 'a', 't', 'c',
         'h', '?'] := rfl
  rw [hdata]
  simp [videoIdMatch, hasPre, vEqNeedle, ytbeNeedle, hcap, hne]

/-- On a canonical short URL the video id regex captures exactly the path
segment after youtu.be/. -/
theorem videoIdMatch_short_url (id : List Char) (hne : id ≠ [])
    (hamp : ∀ c ∈ id, c ≠ '&') :
    videoIdMatch ("https://".data ++ ytbeNeedle ++ id) = some id := by
  have hcap : takeCapture id = id := takeCapture_eq_self hamp
  have hdata : "https://".data = ['h', 't', 't', 'p', 's', ':', '/', '/'] := rfl
  rw [hdata]
  simp [videoIdMatch, hasPre, vEqNeedle, ytbeNeedle, hcap, hne]

/-- C7: for a video URL carrying its identifier in the v= query parameter
or in the path segment after youtu.be/, the thumbnail URL is derived
deterministically from that identifier as
the fixed YouTube image template around the id. -/
theorem video_thumbnail_deterministic (id : List Char) (hne : id ≠ [])
    (hamp : ∀ c ∈ id, c ≠ '&') :
    thumbnailFromUrl (String.mk ("https://www.youtube.com/watch?v=".data ++ id))
        = some (String.mk
            ("https://img.youtube.com/vi/".data ++ id ++ "/maxresdefault.jpg".data)) ∧
    thumbnailFromUrl (String.mk ("https://youtu.be/".data ++ id))
        = some (String.mk
            ("https://img.youtube.com/vi/".data ++ id ++ "/maxresdefault.jpg".data)) := by
  constructor
  · unfold thumbnailFromUrl
    have hsplit : (String.mk ("https://www.youtube.com/watch?v=".data ++ id)).data
        = "https://www.youtube.com/watch?".data ++ vEqNeedle ++ id := by
      simp [vEqNeedle]
    rw [hsplit, videoIdMatch_watch_url id hne hamp]
    rfl
  · unfold thumbnailFromUrl
    have hsplit : (String.mk ("https://youtu.be/".data ++ id)).data
        = "https://".data ++ ytbeNeedle ++ id := by
      simp [ytbeNeedle]
    rw [hsplit, videoIdMatch_short_url id hne hamp]
    rfl

/-- C7 witness: both canonical URL shapes for the id abc yield the fixed
YouTube thumbnail template. -/
theorem video_thumbnail_deterministic_witness :
    thumbnailFromUrl "https://www.youtube.com/watch?v=abc"
        = some "https://img.youtube.com/vi/abc/maxresdefault.jpg" ∧
    thumbnailFromUrl "https://youtu.be/abc"
        = some "https://img.youtube.com/vi/abc/maxresdefault.jpg" := by
  have h := video_thumbnail_deterministic ['a', 'b', 'c'] (by decide) (by decide)
  exact ⟨h.1, h.2⟩

/-- The model tail performs either no further operation or exactly the one
model call. -/
theorem extractTail_ops (url t : String) (th : Option String) (fb : String)
    (env : ExtractEnv) (ops : List ExtOp) :
    (extractTail url t th fb env ops).ops = ops ∨
    (extractTail url t th fb env ops).ops = ops ++ [ExtOp.callModel] := by
  unfold extractTail
  split_ifs <;> try exact Or.inl rfl
  all_goals
    cases env.llmContent with
    | none => exact Or.inr rfl
    | some content =>
      by_cases hc : content = ""
      · exact Or.inr (by subst hc; rfl)
      · cases env.parsedRecipe with
        | none => exact Or.inr (by simp [hc])
        | some rd => exact Or.inr (by simp [hc])

/-- C1: the failure taxonomy of POST /api/recipes/extract: missing or empty
url 400; a thrown transcript fetch on a video URL 400; a failed page fetch
or parse on a generic URL 400; empty or whitespace-only extracted text 400;
missing OPENAI_API_KEY 500; null or empty model content or a JSON parse
failure of the model output 500 — and no run of the handler performs any
external operation more than once. -/
theorem extract_failure_taxonomy :
    (∀ env : ExtractEnv, (extractPost none env).status = 400) ∧
    (∀ env : ExtractEnv, (extractPost (some "") env).status = 400) ∧
    (∀ (url : String) (env : ExtractEnv) (msg : String),
      url ≠ "" → isVideoUrl url = true → env.transcriptResult = Except.error msg →
        (extractPost (some url) env).status = 400) ∧
    (∀ (url : String) (env : ExtractEnv) (msg : String),
      url ≠ "" → isVideoUrl url = false → env.pageResult = Except.error msg →
        (extractPost (some url) env).status = 400) ∧
    (∀ (url t : String) (th : Option String) (fb : String) (env : ExtractEnv)
        (ops : List ExtOp),
      strTrim t = "" → (extractTail url t th fb env ops).status = 400) ∧
    (∀ (url t : String) (th : Option String) (fb : String) (env : ExtractEnv)
        (ops : List ExtOp),
      strTrim t ≠ "" → env.apiKeySet = false →
        (extractTail url t th fb env ops).status = 500) ∧
    (∀ (url t : String) (th : Option String) (fb : String) (env : ExtractEnv)
        (ops : List ExtOp),
      strTrim t ≠ "" → env.apiKeySet = true →
        (env.llmContent = none ∨ env.llmContent = some "" ∨ env.parsedRecipe = none) →
        (extractTail url t th fb env ops).status = 500) ∧
    (∀ (urlField : Option String) (env : ExtractEnv) (op : ExtOp),
      ((extractPost urlField env).ops.count op) ≤ 1) := by
  have hTrimNe : ∀ t : String, strTrim t ≠ "" → t ≠ "" := by
    intro t h ht
    exact h (by rw [ht]; decide)
  refine ⟨fun env => rfl, fun env => rfl, ?_, ?_, ?_, ?_, ?_, ?_⟩
  · intro url env msg hurl hvid htr
    simp [extractPost, hurl, hvid, htr]
  · intro url env msg hurl hvid hpg
    simp [extractPost, hurl, hvid, hpg]
  · intro url t th fb env ops ht
    have hcond : (decide (t = "") || decide (strTrim t = "")) = true := by simp [ht]
    simp [extractTail, hcond]
  · intro url t th fb env ops ht hkey
    have hcond : (decide (t = "") || decide (strTrim t = "")) = false := by
      simp [ht, hTrimNe t ht]
    simp [extractTail, hcond, hkey]
  · intro url t th fb env ops ht hkey hfail
    have hcond : (decide (t = "") || decide (strTrim t = "")) = false := by
      simp [ht, hTrimNe t ht]
    rcases hfail with hl | hl | hp
    · simp [extractTail, hcond, hkey, hl]
    · simp [extractTail, hcond, hkey, hl]
    · cases hc : env.llmContent with
      | none => simp [extractTail, hcond, hkey, hc]
      | some content =>
        by_cases hce : content = ""
        · simp [extractTail, hcond, hkey, hc, hce]
        · simp [extractTail, hcond, hkey, hc, hce, hp]
  · intro urlField env op
    have countTail : ∀ (url t : String) (th : Option String) (fb : String)
        (base : List ExtOp),
        base.count op ≤ 1 → (base ++ [ExtOp.callModel]).count op ≤ 1 →
        ((extractTail url t th fb env base).ops.count op) ≤ 1 := by
      intro url t th fb base h1 h2
      rcases extractTail_ops url t th fb env base with h | h <;> rw [h]
      · exact h1
      · exact h2
    cases urlField with
    | none => simp [extractPost]
    | some url =>
      by_cases hurl : url = ""
      · simp [extractPost, hurl]
      · unfold extractPost
        simp only [if_neg hurl]
        by_cases hvid : isVideoUrl url
        · simp only [hvid, if_true]
          cases env.transcriptResult with
          | error msg => cases op <;> simp [List.count_cons, List.count_nil]
          | ok items =>
            refine countTail _ _ _ _ _ ?_ ?_ <;> cases op <;> decide
        · simp only [hvid, Bool.false_eq_true, if_false]
          cases env.pageResult with
          | error msg => cases op <;> simp [List.count_cons, List.count_nil]
          | ok page =>
            refine countTail _ _ _ _ _ ?_ ?_ <;> cases op <;> decide

/-- C1 witness: a video URL whose transcript fetch throws gets status 400,
and a whitespace-only extracted text gets status 400. -/
theorem extract_failure_taxonomy_witness :
    (extractPost (some "https://www.youtube.com/watch?v=abc")
        { transcriptResult := Except.error "no transcript",
          pageResult := Except.error "unused", apiKeySet := true,
          llmContent := none, parsedRecipe := none }).status = 400 ∧
    (extractTail "https://example.com/recipe" "   " none ""
        { transcriptResult := Except.error "unused",
          pageResult := Except.error "unused", apiKeySet := true,
          llmContent := none, parsedRecipe := none } []).status = 400 := by
  constructor
  · exact extract_failure_taxonomy.2.2.1 "https://www.youtube.com/watch?v=abc"
      { transcriptResult := Except.error "no transcript",
        pageResult := Except.error "unused", apiKeySet := true,
        llmContent := none, parsedRecipe := none } "no transcript"
      (by decide) (by decide) rfl
  · exact extract_failure_taxonomy.2.2.2.2.1 "https://example.com/recipe" "   " none ""
      { transcriptResult := Except.error "unused",
        pageResult := Except.error "unused", apiKeySet := true,
        llmContent := none, parsedRecipe := none } [] (by decide)

/-- When the model tail succeeds and the parsed title is whitespace-only,
the response title is the fallback title when nonempty and otherwise the
placeholder. -/
theorem extractTail_success_title (url t : String) (th : Option String)
    (fb : String) (env : ExtractEnv) (ops : List ExtOp) (rd : LlmRecipe)
    (hparsed : env.parsedRecipe = some rd) (htitle : strTrim rd.title = "")
    (h200 : (extractTail url t th fb env ops).status = 200) :
    ((extractTail url t th fb env ops).resp).map ExtractResponse.title
      = some (if fb ≠ "" then fb else placeholderTitle) := by
  unfold extractTail at h200 ⊢
  split_ifs at h200 ⊢ with h1 h2 <;> try simp at h200
  all_goals
    cases hc : env.llmContent with
    | none =>
      rw [hc] at h200
      simp at h200
    | some content =>
      by_cases hce : content = ""
      · subst hce
        rw [hc] at h200
        simp at h200
      · rw [hparsed]
        simp [hce, htitle]

/-- C6: in every successful extraction whose model output has an empty or
whitespace-only title, the returned title is the scraped page title, else
the first h1 text, else the fixed placeholder; on the video path, which
scrapes no fallback title, it is always the placeholder. -/
theorem extract_title_fallback :
    (∀ (url : String) (env : ExtractEnv) (page : PageData) (rd : LlmRecipe),
      isVideoUrl url = false → env.pageResult = Except.ok page →
      env.parsedRecipe = some rd → strTrim rd.title = "" →
      (extractPost (some url) env).status = 200 →
      ((extractPost (some url) env).resp).map ExtractResponse.title
        = some (if page.titleText ≠ "" then page.titleText
                else if page.h1Text ≠ "" then page.h1Text
                else placeholderTitle)) ∧
    (∀ (url : String) (env : ExtractEnv) (rd : LlmRecipe),
      isVideoUrl url = true →
      env.parsedRecipe = some rd → strTrim rd.title = "" →
      (extractPost (some url) env).status = 200 →
      ((extractPost (some url) env).resp).map ExtractResponse.title
        = some placeholderTitle) := by
  constructor
  · intro url env page rd hvid hpage hparsed htitle h200
    by_cases hurl : url = ""
    · rw [hurl] at h200
      simp [extractPost] at h200
    unfold extractPost at h200 ⊢
    simp only [if_neg hurl, hvid, Bool.false_eq_true, if_false, hpage] at h200 ⊢
    rw [extractTail_success_title _ _ _ _ _ _ rd hparsed htitle h200]
    by_cases ht : page.titleText = "" <;> by_cases hh : page.h1Text = "" <;>
      simp [ht, hh]
  · intro url env rd hvid hparsed htitle h200
    by_cases hurl : url = ""
    · rw [hurl] at h200
      simp [extractPost] at h200
    unfold extractPost at h200 ⊢
    simp only [if_neg hurl, hvid, if_true] at h200 ⊢
    cases htr : env.transcriptResult with
    | error msg =>
      rw [htr] at h200
      simp at h200
    | ok items =>
      rw [htr] at h200
      have h200t : (extractTail url (String.intercalate " " items)
          (thumbnailFromUrl url) "" env [ExtOp.fetchTranscript]).status = 200 := h200
      have hres := extractTail_success_title url (String.intercalate " " items)
        (thumbnailFromUrl url) "" env [ExtOp.fetchTranscript] rd hparsed htitle h200t
      simpa using hres

/-- C6 witness: a successful generic-page extraction whose model title is
blank takes the page title, and a successful video extraction with a blank
model title takes the placeholder. -/
theorem extract_title_fallback_witness :
    (((extractPost (some "https://blog.example.com/kimchi")
        { transcriptResult := Except.error "unused",
          pageResult := Except.ok
            { bodyText := "김치찌개 레시피", titleText := "김치찌개 황금레시피",
              h1Text := "", ogImage := none },
          apiKeySet := true, llmContent := some "{}",
          parsedRecipe := some
            { title := " ", difficulty := "Easy", servings := 2,
              ingredients := [], steps := [] } }).resp).map ExtractResponse.title
      = some "김치찌개 황금레시피") ∧
    (((extractPost (some "https://youtu.be/abc")
        { transcriptResult := Except.ok ["김치", "찌개"],
          pageResult := Except.error "unused",
          apiKeySet := true, llmContent := some "{}",
          parsedRecipe := some
            { title := "", difficulty := "Easy", servings := 2,
              ingredients := [], steps := [] } }).resp).map ExtractResponse.title
      = some placeholderTitle) := by
  constructor
  · have h := extract_title_fallback.1 "https://blog.example.com/kimchi"
      { transcriptResult := Except.error "unused",
        pageResult := Except.ok
          { bodyText := "김치찌개 레시피", titleText := "김치찌개 황금레시피",
            h1Text := "", ogImage := none },
        apiKeySet := true, llmContent := some "{}",
        parsedRecipe := some
          { title := " ", difficulty := "Easy", servings := 2,
            ingredients := [], steps := [] } }
      { bodyText := "김치찌개 레시피", titleText := "김치찌개 황금레시피",
        h1Text := "", ogImage := none }
      { title := " ", difficulty := "Easy", servings := 2,
        ingredients := [], steps := [] }
      (by decide) rfl rfl (by decide) (by decide)
    simpa using h
  · have h := extract_title_fallback.2 "https://youtu.be/abc"
      { transcriptResult := Except.ok ["김치", "찌개"],
        pageResult := Except.error "unused",
        apiKeySet := true, llmContent := some "{}",
        parsedRecipe := some
          { title := "", difficulty := "Easy", servings := 2,
            ingredients := [], steps := [] } }
      { title := "", difficulty := "Easy", servings := 2,
        ingredients := [], steps := [] }
      (by decide) rfl (by decide) (by decide)
    simpa using h

/-- C8: the catalog search of GET /api/ingredients/master never returns
more than 50 entries (with or without a query), and with a nonblank query
the name of every returned entry contains the trimmed query as a
case-insensitive substring. -/
theorem master_search_capped_and_matching (catalog : List MasterRow)
    (qParam : Option String) :
    (masterSearch catalog qParam).length ≤ 50 ∧
    (∀ row ∈ masterSearch catalog qParam, ∀ q : String,
      qParam = some q → strTrim q ≠ "" →
      nameContainsCI row.name (strTrim q) = true) := by
  constructor
  · unfold masterSearch
    exact List.length_take_le 50 _
  · intro row hrow q hq hne
    unfold masterSearch at hrow
    rw [hq] at hrow
    simp only [Option.map_some', Option.getD_some, if_pos hne] at hrow
    have hsorted := List.take_subset 50 _ hrow
    have hfiltered :=
      (List.mergeSort_perm (catalog.filter
        (fun row => nameContainsCI row.name (strTrim q)))
        (fun a b => a.name ≤ b.name)).subset hsorted
    exact (List.mem_filter.mp hfiltered).2

/-- C8 witness: a two-entry catalog searched with a padded query returns
only names containing the trimmed query, and the result is within the
cap. -/
theorem master_search_capped_and_matching_witness :
    (masterSearch
        [⟨1, "대파", none, none, none⟩, ⟨2, "양파", none, none, none⟩]
        (some " 대파 ")).length ≤ 50 ∧
    nameContainsCI "대파" (strTrim " 대파 ") = true := by
  have h := master_search_capped_and_matching
    [⟨1, "대파", none, none, none⟩, ⟨2, "양파", none, none, none⟩]
    (some " 대파 ")
  refine ⟨h.1, ?_⟩
  have hrow : (⟨1, "대파", none, none, none⟩ : MasterRow) ∈ masterSearch
      [⟨1, "대파", none, none, none⟩, ⟨2, "양파", none, none, none⟩]
      (some " 대파 ") := by
    simp [masterSearch, nameContainsCI, listContains, hasPre, strTrim, trimChars,
      List.mergeSort, List.filter]
  exact h.2 ⟨1, "대파", none, none, none⟩ hrow " 대파 " rfl (by decide)

/-- A syntactically valid create-recipe payload carrying a negative
servings value and a negative ingredient amount. -/
def negativeRecipeBody : CreateRecipeBody :=
  { title := some "김치찌개"
    servings := some (-2)
    difficulty := none
    source_url := none
    thumbnail_url := none
    ingredients := some [{ name := some "김치", amount := some (-5), unit := none }]
    steps := some [{ step_order := some 1, instruction := some "끓인다",
                     timer_seconds := none, step_image_url := none }] }

/-- C9 counterexample: POST /api/recipes accepts a payload with
servings -2 and ingredient amount -5 (status 201) and persists both
negative values, because the validation never checks either range. -/
theorem create_recipe_accepts_negative_values :
    (createRecipe (some 1) negativeRecipeBody).1 = 201 ∧
    ((createRecipe (some 1) negativeRecipeBody).2.map StoredRecipe.servings)
      = some (-2) ∧
    ((createRecipe (some 1) negativeRecipeBody).2.map
        (fun r => r.ingredients.map StoredIngredient.amount)) = some [some (-5)] := by
  refine ⟨rfl, ?_, ?_⟩ <;> rfl

/-- C9 amended: fridge item quantities are validated positive, so every
fridge item persisted through POST /api/fridge has a positive quantity and
every quantity change through PUT /api/fridge/[item_id] is positive; but
POST /api/recipes persists servings and ingredient amounts exactly as
supplied, with no sign check, so negative values can be stored there. -/
theorem quantity_positive_recipes_unchecked :
    (∀ (uid todayDay : ℤ) (body : CreateFridgeBody) (master : Option MasterLookup)
        (item : NewFridgeItem),
      (fridgePost (some uid) todayDay body master).2 = some item →
      0 < item.quantity) ∧
    (∀ (uid idVal : ℤ) (record : OwnedRecord) (body : UpdateFridgeBody)
        (upd : FridgeUpdate) (q : ℚ),
      (fridgeItemPut (some uid) (some idVal) (some record) body).2 = some upd →
      upd.quantity = some q → 0 < q) ∧
    (∀ (uid : ℤ) (body : CreateRecipeBody) (r : StoredRecipe),
      (createRecipe (some uid) body).2 = some r →
      r.servings = body.servings.getD 1 ∧
      r.ingredients.map StoredIngredient.amount
        = (body.ingredients.getD []).map RecipeIngIn.amount) := by
  refine ⟨?_, ?_, ?_⟩
  · intro uid todayDay body master item h
    simp only [fridgePost] at h
    split at h
    · simp at h
    · rename_i hcond
      have hitem := Option.some.inj h
      rw [← hitem]
      simp only [Bool.or_eq_true, not_or] at hcond
      obtain ⟨⟨-, hq⟩, -⟩ := hcond
      cases hbq : body.quantity with
      | none => simp [hbq]
      | some q =>
        rw [hbq] at hq
        simp only [decide_eq_true_eq, not_le] at hq
        simpa [hbq] using hq
  · intro uid idVal record body upd q h hq
    simp only [fridgeItemPut] at h
    split at h
    · simp at h
    · split at h
      · simp at h
      · split at h
        · simp at h
        · rename_i hcond
          have hupd := Option.some.inj h
          rw [← hupd] at hq
          simp only at hq
          simp only [Bool.or_eq_true, not_or] at hcond
          obtain ⟨hqe, -⟩ := hcond
          cases hbq : body.quantity with
          | none => rw [hbq] at hq; simp at hq
          | some q0 =>
            rw [hbq] at hq hqe
            simp only [decide_eq_true_eq, not_le] at hqe
            simp only [Option.some.injEq] at hq
            rw [← hq]
            exact hqe
  · intro uid body r h
    obtain ⟨btitle, bservings, bdiff, bsrc, bthumb, bings, bsteps⟩ := body
    cases bings with
    | none => simp [createRecipe] at h
    | some ings =>
      cases bsteps with
      | none => simp [createRecipe] at h
      | some steps =>
        simp only [createRecipe] at h
        split at h
        · simp at h
        · have hr := Option.some.inj h
          rw [← hr]
          refine ⟨rfl, ?_⟩
          simp only [Option.getD_some, List.map_map]
          rfl

/-- C9 amended witness: a concrete fridge creation persists quantity 2,
which is positive, and the concrete negative-recipe payload round-trips its
supplied servings. -/
theorem quantity_positive_recipes_unchecked_witness :
    ((fridgePost (some 1) 20000
        { name := some "대파", quantity := some 2, unit := none,
          expiry_date := none } none).2.elim True (fun item => 0 < item.quantity)) ∧
    ((createRecipe (some 1) negativeRecipeBody).2.elim True
        (fun r => r.servings = negativeRecipeBody.servings.getD 1)) := by
  constructor
  · have h := quantity_positive_recipes_unchecked.1 1 20000
      { name := some "대파", quantity := some 2, unit := none, expiry_date := none }
      none
    cases hres : (fridgePost (some 1) 20000
        { name := some "대파", quantity := some 2, unit := none,
          expiry_date := none } none).2 with
    | none => simp
    | some item => simpa using h item hres
  · have h := quantity_positive_recipes_unchecked.2.2 1 negativeRecipeBody
    cases hres : (createRecipe (some 1) negativeRecipeBody).2 with
    | none => simp
    | some r => simpa using (h r hres).1

/-- C10: POST /api/fridge with an expiry_date rejects a string that is not
a valid YYYY-MM-DD date (400, nothing created) and a date strictly before
today (400, nothing created); consequently every item it creates from a
supplied expiry date has an expiry on or after today. -/
theorem fridge_post_expiry_validation (uid todayDay : ℤ)
    (body : CreateFridgeBody) (master : Option MasterLookup) (s : String)
    (hs : body.expiry_date = some s) :
    (isValidDateString s = false →
      fridgePost (some uid) todayDay body master = (400, none)) ∧
    (∀ d : ℤ, dateStringDays s = some d → d < todayDay →
      fridgePost (some uid) todayDay body master = (400, none)) ∧
    (∀ item : NewFridgeItem,
      (fridgePost (some uid) todayDay body master).2 = some item →
      ∃ d : ℤ, dateStringDays s = some d ∧ todayDay ≤ d ∧
        item.expiry_date = some d) := by
  refine ⟨?_, ?_, ?_⟩
  · intro hvalid
    unfold fridgePost
    simp [hs, hvalid]
  · intro d hd hlt
    have hvalid : isValidDateString s = true := by
      unfold isValidDateString
      rw [hd]
      rfl
    unfold fridgePost
    simp [hs, hvalid, hd, hlt]
  · intro item h
    simp only [fridgePost] at h
    split at h
    · simp at h
    · rename_i hcond
      have hitem := Option.some.inj h
      simp only [Bool.or_eq_true, not_or] at hcond
      obtain ⟨-, hexp⟩ := hcond
      rw [hs] at hexp
      simp only [] at hexp
      cases hds : dateStringDays s with
      | none =>
        have hvalid : isValidDateString s = false := by
          unfold isValidDateString
          rw [hds]
          rfl
        rw [hvalid] at hexp
        simp at hexp
      | some d =>
        have hvalid : isValidDateString s = true := by
          unfold isValidDateString
          rw [hds]
          rfl
        rw [hvalid, hds] at hexp
        simp only [Bool.not_true, Bool.false_eq_true, if_false,
          decide_eq_true_eq, not_lt] at hexp
        refine ⟨d, rfl, hexp, ?_⟩
        rw [← hitem]
        simp [hs, hds]

/-- C10 witness: a malformed month is rejected, a past date is rejected,
both with status 400 and nothing created. -/
theorem fridge_post_expiry_validation_witness :
    fridgePost (some 1) 20000
        { name := some "우유", quantity := none, unit := none,
          expiry_date := some "2020-13-01" } none = (400, none) ∧
    fridgePost (some 1) 20000
        { name := some "우유", quantity := none, unit := none,
          expiry_date := some "2020-01-02" } none = (400, none) := by
  constructor
  · exact (fridge_post_expiry_validation 1 20000
      { name := some "우유", quantity := none, unit := none,
        expiry_date := some "2020-13-01" } none "2020-13-01" rfl).1 (by decide)
  · exact (fridge_post_expiry_validation 1 20000
      { name := some "우유", quantity := none, unit := none,
        expiry_date := some "2020-01-02" } none "2020-01-02" rfl).2.1
      (civilToDays 2020 1 2) (by decide) (by decide)

end Accio
